import Mathlib

/-!
Shallow embedding of the `aadhar-solana` on-chain programs
(`programs/reputation-engine`, `programs/verification-oracle`,
`programs/staking-manager`) and verification of the specification claims.

Conventions of the embedding:
* Solana `Pubkey`s are modelled as `Nat`.
* Rust `u8`/`u64`/`u128` values are `Nat` with explicit bounds where the
  source uses `checked_*` / `saturating_*` arithmetic; `i64` timestamps are
  `Int`, with explicit range checks where the source uses `checked_add`.
* Fallible instructions return `Except E S` (`Option S` where the only
  failure is a `checked_*().unwrap()` panic); a failed instruction leaves
  all accounts unchanged (Solana transactions are atomic).
* Cross-program invocations (CPIs into `identity-registry` and the SOL
  lamport transfers) are external side effects with no bearing on the
  account fields the claims talk about; they are not modelled.
-/

deriving instance DecidableEq for Except

/-! ## Machine-integer helpers -/

def U8MAX : Nat := 255

def U64MAX : Nat := 2 ^ 64 - 1

def U128MAX : Nat := 2 ^ 128 - 1

def I64MIN : Int := -(2 ^ 63)

def I64MAX : Int := 2 ^ 63 - 1

/-- Rust `u8::checked_add`. -/
def checkedAdd8 (a b : Nat) : Option Nat :=
  if a + b ≤ U8MAX then some (a + b) else none

/-- Rust `u64::checked_add`. -/
def checkedAdd64 (a b : Nat) : Option Nat :=
  if a + b ≤ U64MAX then some (a + b) else none

/-- Rust `u128::checked_add`. -/
def checkedAdd128 (a b : Nat) : Option Nat :=
  if a + b ≤ U128MAX then some (a + b) else none

/-- Rust `u64::checked_mul`. -/
def checkedMul64 (a b : Nat) : Option Nat :=
  if a * b ≤ U64MAX then some (a * b) else none

/-- Rust `u128::checked_mul`. -/
def checkedMul128 (a b : Nat) : Option Nat :=
  if a * b ≤ U128MAX then some (a * b) else none

/-- Rust `checked_sub` on unsigned integers. -/
def checkedSub (a b : Nat) : Option Nat :=
  if b ≤ a then some (a - b) else none

/-- Rust `u64::checked_add(..).unwrap_or(u64::MAX)`: saturating addition. -/
def satAdd64 (a b : Nat) : Nat :=
  min (a + b) U64MAX

/-- Rust `i64::checked_add`. -/
def checkedAddI64 (a b : Int) : Option Int :=
  if I64MIN ≤ a + b ∧ a + b ≤ I64MAX then some (a + b) else none

/-! ## reputation-engine (`programs/reputation-engine/src`)

`lib.rs` operates on accounts `ReputationAccount` and a config whose fields
it reads as `base_score`, `decay_rate`, `verification_bonus`,
`credential_bonus` (set in `initialize_config`); the struct definitions that
`lib.rs` compiles against are absent from `state.rs`, whose (unused)
`ReputationConfig` instead carries `min_score`/`max_score`/`decay_rate_bps`,
and whose (unused) `ReputationScore` carries a `tier`.  We embed both: the
operational records exactly as used by `lib.rs`, and the `state.rs` records
for stating the spec's bound/tier claims. -/

/-- Config fields as read and written by `reputation-engine/src/lib.rs`
(`initialize_config`, `record_*`, `apply_time_decay`).  The corresponding
struct definition is missing from `state.rs`; the fields are taken verbatim
from their uses in `lib.rs`. -/
structure ReputationConfig where
  base_score : Nat
  decay_rate : Nat
  verification_bonus : Nat
  credential_bonus : Nat
deriving DecidableEq

/-- The (dead-code) `ReputationConfig` of
`reputation-engine/src/state.rs`, which alone carries
`min_score`/`max_score`/`decay_rate_bps`. -/
structure ReputationConfigState where
  base_score : Nat
  max_score : Nat
  min_score : Nat
  decay_rate_bps : Nat
  last_decay_run : Int
deriving DecidableEq

/-- `ReputationTier` of `state.rs` (only used by the dead-code
`ReputationScore`; no tier is stored on the account `lib.rs` mutates). -/
inductive ReputationTier where
  | Bronze
  | Silver
  | Gold
  | Platinum
  | Diamond
deriving DecidableEq

/-- `ReputationTier::from_score` of `state.rs`. -/
def ReputationTier.fromScore (score : Nat) : ReputationTier :=
  if score ≤ 300 then .Bronze
  else if score ≤ 500 then .Silver
  else if score ≤ 700 then .Gold
  else if score ≤ 900 then .Platinum
  else .Diamond

/-- `ReputationAccount` as used by `lib.rs` (fields taken verbatim from
their uses there; the struct definition is absent from `state.rs`).
The `bump` byte is omitted. -/
structure ReputationAccount where
  identity : Nat
  score : Nat
  last_updated : Int
  verification_count : Nat
  credential_count : Nat
  activity_count : Nat
  challenges_received : Nat
  challenges_won : Nat
deriving DecidableEq

/-- `apply_time_decay` (`lib.rs:207-219`): if any positive time elapsed,
`decay_periods = time_elapsed / (30*24*60*60)` (monthly periods), and for
`decay_periods > 0` the score drops by
`decay_rate.checked_mul(periods).unwrap_or(score)` with `saturating_sub`.
Note: `last_updated` is NOT advanced here; the callers set it afterwards. -/
def applyTimeDecay (config : ReputationConfig) (reputation : ReputationAccount)
    (current_time : Int) : ReputationAccount :=
  let time_elapsed := current_time - reputation.last_updated
  if 0 < time_elapsed then
    let decay_periods := time_elapsed.toNat / (30 * 24 * 60 * 60)
    if 0 < decay_periods then
      let decay_amount := (checkedMul64 config.decay_rate decay_periods).getD reputation.score
      { reputation with score := reputation.score - decay_amount }
    else reputation
  else reputation

/-- `record_verification` (`lib.rs:60-80`).  The `checked_add(1).unwrap()`
on the counter is a panic (whole-transaction abort), modelled as `none`. -/
def recordVerification (config : ReputationConfig) (reputation : ReputationAccount)
    (now : Int) : Option ReputationAccount :=
  let r := applyTimeDecay config reputation now
  (checkedAdd64 r.verification_count 1).map fun vc =>
    { r with
      verification_count := vc
      score := satAdd64 r.score config.verification_bonus
      last_updated := now }

/-- `record_credential` (`lib.rs:82-102`). -/
def recordCredential (config : ReputationConfig) (reputation : ReputationAccount)
    (now : Int) : Option ReputationAccount :=
  let r := applyTimeDecay config reputation now
  (checkedAdd64 r.credential_count 1).map fun cc =>
    { r with
      credential_count := cc
      score := satAdd64 r.score config.credential_bonus
      last_updated := now }

/-- `record_activity` (`lib.rs:104-134`). -/
def recordActivity (config : ReputationConfig) (reputation : ReputationAccount)
    (activity_type : Nat) (now : Int) : Option ReputationAccount :=
  let r := applyTimeDecay config reputation now
  (checkedAdd64 r.activity_count 1).map fun ac =>
    let activity_bonus : Nat :=
      match activity_type with
      | 0 => 10
      | 1 => 25
      | 2 => 50
      | _ => 5
    { r with
      activity_count := ac
      score := satAdd64 r.score activity_bonus
      last_updated := now }

/-- `resolve_challenge` (`lib.rs:159-183`): on a won challenge only the
`challenges_won` counter moves; on a lost one the score drops by `penalty`
with `saturating_sub`.  No decay is applied here. -/
def resolveChallenge (reputation : ReputationAccount) (challenge_won : Bool)
    (penalty : Nat) (now : Int) : Option ReputationAccount :=
  if challenge_won then
    (checkedAdd64 reputation.challenges_won 1).map fun cw =>
      { reputation with challenges_won := cw, last_updated := now }
  else
    some { reputation with score := reputation.score - penalty, last_updated := now }

/-- One reputation-mutating instruction (the ones named by claim C1). -/
inductive RepOp where
  | recVerification (now : Int)
  | recCredential (now : Int)
  | recActivity (activity_type : Nat) (now : Int)
  | resolve (challenge_won : Bool) (penalty : Nat) (now : Int)

def applyRepOp (config : ReputationConfig) (a : ReputationAccount) :
    RepOp → Option ReputationAccount
  | .recVerification now => recordVerification config a now
  | .recCredential now => recordCredential config a now
  | .recActivity ty now => recordActivity config a ty now
  | .resolve w p now => resolveChallenge a w p now

def runRepOps (config : ReputationConfig) (a : ReputationAccount) :
    List RepOp → Option ReputationAccount
  | [] => some a
  | op :: ops => (applyRepOp config a op).bind fun a' => runRepOps config a' ops

/-- Claimed decay rule, modelled from the spec's words (spec §4.2
`applyDecay`): daily periods, decay proportional to the current score at
`decay_rate_bps`, floored at `min_score`. -/
def applyTimeDecaySpec (decay_rate_bps min_score score : Nat)
    (last_event now : Int) : Nat :=
  let days := ((now - last_event) / 86400).toNat
  if 0 < days then
    max (score - score * decay_rate_bps * days / 10000) min_score
  else score

/-! ## verification-oracle (`programs/verification-oracle/src`) -/

inductive OracleStatus where
  | Active
  | Inactive
  | Slashed
deriving DecidableEq

inductive VerificationStatus where
  | Pending
  | InProgress
  | Verified
  | Rejected
  | Expired
deriving DecidableEq

/-- The `OracleError` variants reachable in the embedded instructions
(`errors.rs`). -/
inductive OracleError where
  | OracleNotActive
  | RequestExpired
  | RequestNotPending
  | AlreadyResponded
  | AlreadyFinalized
  | InsufficientConfirmations
  | DeadlineNotReached
  | MaxOraclesReached
  | Overflow
deriving DecidableEq

/-- `OracleConfig` (`state.rs`), numeric fields used by the instructions;
`Pubkey`/`bump` bookkeeping omitted.  `required_confirmations : u8`,
`active_oracle_count : u32`. -/
structure OracleConfig where
  min_oracle_stake : Nat
  verification_fee : Nat
  required_confirmations : Nat
  verification_timeout : Int
  slash_percentage_bps : Nat
  active_oracle_count : Nat
  total_verifications : Nat
deriving DecidableEq

/-- `OracleNode` (`state.rs`), minus the `stake_account` pubkey and `bump`. -/
structure OracleNode where
  authority : Nat
  status : OracleStatus
  verifications_submitted : Nat
  successful_verifications : Nat
  failed_verifications : Nat
  slash_count : Nat
  registered_at : Int
  last_active : Int
deriving DecidableEq

/-- `VerificationRequest` (`state.rs`), minus `verification_hash` and
`bump`. `confirmations`/`rejections` are `u8`. -/
structure VerificationRequest where
  identity : Nat
  verification_type : Nat
  status : VerificationStatus
  fee_paid : Nat
  created_at : Int
  deadline : Int
  confirmations : Nat
  rejections : Nat
  responded_oracles : List Nat
  result : Option Bool
deriving DecidableEq

/-- `VerificationRequest::MAX_ORACLES`. -/
def MAX_ORACLES : Nat := 10

/-- `OracleResponse` (`state.rs`), minus `metadata_hash` and `bump`;
the request reference is left out (it is the PDA key of the request). -/
structure OracleResponse where
  oracle : Nat
  verified : Bool
  responded_at : Int
deriving DecidableEq

/-- `submit_verification` (`lib.rs:145-213`): guards in source order
(oracle Active, request Pending/InProgress, deadline, duplicate responder,
capacity), then records the response, bumps the `u8` vote counter with
`checked_add`, appends the oracle to `responded_oracles`, moves a Pending
request to InProgress and updates the oracle's activity stats. -/
def submitVerification (oracle_node : OracleNode) (request : VerificationRequest)
    (verified : Bool) (now : Int) :
    Except OracleError (OracleNode × VerificationRequest × OracleResponse) := do
  if ¬ oracle_node.status = .Active then
    throw .OracleNotActive
  else if ¬ (request.status = .Pending ∨ request.status = .InProgress) then
    throw .RequestNotPending
  else if ¬ now ≤ request.deadline then
    throw .RequestExpired
  else if oracle_node.authority ∈ request.responded_oracles then
    throw .AlreadyResponded
  else if ¬ request.responded_oracles.length < MAX_ORACLES then
    throw .MaxOraclesReached
  else
    let response : OracleResponse :=
      { oracle := oracle_node.authority, verified := verified, responded_at := now }
    let request ← (do
      if verified then
        match checkedAdd8 request.confirmations 1 with
        | some c => pure { request with confirmations := c }
        | none => throw OracleError.Overflow
      else
        match checkedAdd8 request.rejections 1 with
        | some r => pure { request with rejections := r }
        | none => throw OracleError.Overflow)
    let request := { request with
      responded_oracles := request.responded_oracles ++ [oracle_node.authority] }
    let request :=
      if request.status = .Pending then { request with status := .InProgress } else request
    match checkedAdd64 oracle_node.verifications_submitted 1 with
    | none => throw .Overflow
    | some vs =>
        pure ({ oracle_node with verifications_submitted := vs, last_active := now },
              request, response)

/-- `finalize_verification` (`lib.rs:216-264`): requires status InProgress;
`total_responses = confirmations + rejections` is an unchecked `u8` sum
(wrapping mod 256 in a release build); requires
`total_responses >= required_confirmations`; the result is the strict
majority `confirmations > rejections` and the status becomes
Verified/Rejected.  The CPI to the identity registry in the Verified branch
is an external effect. -/
def finalizeVerification (config : OracleConfig) (request : VerificationRequest) :
    Except OracleError VerificationRequest :=
  if ¬ request.status = .InProgress then
    throw .RequestNotPending
  else
    let total_responses := (request.confirmations + request.rejections) % 256
    if ¬ config.required_confirmations ≤ total_responses then
      throw .InsufficientConfirmations
    else
      let verified : Bool := decide (request.rejections < request.confirmations)
      let request := { request with result := some verified }
      if verified then
        pure { request with status := .Verified }
      else
        pure { request with status := .Rejected }

/-- `expire_verification` (`lib.rs:267-287`). -/
def expireVerification (request : VerificationRequest) (now : Int) :
    Except OracleError VerificationRequest :=
  if ¬ (request.status = .Pending ∨ request.status = .InProgress) then
    throw .AlreadyFinalized
  else if ¬ request.deadline < now then
    throw .DeadlineNotReached
  else
    pure { request with status := .Expired, result := none }

/-- `slash_oracle` (`lib.rs:290-321`): bumps `slash_count` (`u8`) and
`failed_verifications` (`u64`) with `checked_add`; whenever the new
`slash_count` is `>= 3` the node's status is set to Slashed and
`active_oracle_count` is decremented with `checked_sub`. -/
def slashOracle (config : OracleConfig) (oracle_node : OracleNode) :
    Except OracleError (OracleConfig × OracleNode) := do
  let sc ← match checkedAdd8 oracle_node.slash_count 1 with
    | some sc => pure sc
    | none => throw OracleError.Overflow
  let fv ← match checkedAdd64 oracle_node.failed_verifications 1 with
    | some fv => pure fv
    | none => throw OracleError.Overflow
  let node := { oracle_node with slash_count := sc, failed_verifications := fv }
  if 3 ≤ sc then
    match checkedSub config.active_oracle_count 1 with
    | some cnt =>
        pure ({ config with active_oracle_count := cnt }, { node with status := .Slashed })
    | none => throw .Overflow
  else
    pure (config, node)

/-- `deregister_oracle` (`lib.rs:79-92`): unconditionally sets the node's
status to Inactive and decrements `active_oracle_count` with `checked_sub`
(the whole transaction aborts if the count is zero). -/
def deregisterOracle (config : OracleConfig) (oracle_node : OracleNode) :
    Except OracleError (OracleConfig × OracleNode) :=
  match checkedSub config.active_oracle_count 1 with
  | some cnt =>
      pure ({ config with active_oracle_count := cnt },
            { oracle_node with status := .Inactive })
  | none => throw .Overflow


/-! ## staking-manager (`programs/staking-manager/src`) -/

/-- `REWARD_PRECISION` (`lib.rs:13`). -/
def REWARD_PRECISION : Nat := 1000000000000

/-- The `StakingError` variants reachable in the embedded instructions. -/
inductive StakingError where
  | InsufficientStakeAmount
  | InsufficientStakedBalance
  | CooldownNotElapsed
  | NoPendingUnstake
  | UnstakeAlreadyRequested
  | NoRewardsAvailable
  | PoolPaused
  | InvalidSlashAmount
  | Overflow
  | ExcessiveUnstakeAmount
deriving DecidableEq

/-- `StakingPool` (`state.rs`), minus the pubkeys and `bump`.
`acc_reward_per_share` is a `u128` scaled by `REWARD_PRECISION`. -/
structure StakingPool where
  total_staked : Nat
  min_stake_amount : Nat
  reward_rate_bps : Nat
  unstake_cooldown : Int
  last_reward_distribution : Int
  acc_reward_per_share : Nat
  paused : Bool
deriving DecidableEq

/-- `StakeAccount` (`state.rs`), minus `bump`.  `reward_debt` is `u128`. -/
structure StakeAccount where
  owner : Nat
  staked_amount : Nat
  staked_at : Int
  pending_rewards : Nat
  reward_debt : Nat
  unstake_requested_at : Int
  unstake_amount : Nat
  total_rewards_claimed : Nat
  slash_count : Nat
deriving DecidableEq

/-- `SlashReason` (`state.rs`). -/
inductive SlashReason where
  | InvalidVerification
  | MaliciousBehavior
  | Timeout
  | ConsensusViolation
deriving DecidableEq

/-- `SlashRecord` (`state.rs`), minus `bump`. -/
structure SlashRecord where
  staker : Nat
  amount : Nat
  reason : SlashReason
  timestamp : Int
  slashed_by : Nat
deriving DecidableEq

/-- `update_pool_rewards` (`lib.rs:322-355`): with an empty pool only the
clock advances; otherwise for positive elapsed time the pool accrues
`reward = elapsed * reward_rate_bps * total_staked / seconds_per_year / 10000`
and `acc_reward_per_share += reward * REWARD_PRECISION / total_staked`,
all in checked `u128` arithmetic. -/
def updatePoolRewards (pool : StakingPool) (current_time : Int) :
    Except StakingError StakingPool := do
  if pool.total_staked = 0 then
    pure { pool with last_reward_distribution := current_time }
  else
    let time_elapsed := current_time - pool.last_reward_distribution
    if 0 < time_elapsed then
      let seconds_per_year : Nat := 365 * 24 * 60 * 60
      let r1 ← match checkedMul128 time_elapsed.toNat pool.reward_rate_bps with
        | some r => pure r
        | none => throw StakingError.Overflow
      let r2 ← match checkedMul128 r1 pool.total_staked with
        | some r => pure r
        | none => throw StakingError.Overflow
      let reward := r2 / seconds_per_year / 10000
      let r3 ← match checkedMul128 reward REWARD_PRECISION with
        | some r => pure r
        | none => throw StakingError.Overflow
      let reward_per_share := r3 / pool.total_staked
      match checkedAdd128 pool.acc_reward_per_share reward_per_share with
      | some acc =>
          pure { pool with acc_reward_per_share := acc, last_reward_distribution := current_time }
      | none => throw StakingError.Overflow
    else
      pure pool

/-- `calculate_pending_rewards` (`lib.rs:358-373`):
`(staked_amount * acc_reward_per_share / PRECISION - reward_debt)` with
checked `u128` arithmetic, `checked_sub(..).unwrap_or(0)` and a truncating
`as u64` cast (mod `2^64`). -/
def calculatePendingRewards (stake_account : StakeAccount) (pool : StakingPool) :
    Except StakingError Nat :=
  if stake_account.staked_amount = 0 then
    pure 0
  else
    match checkedMul128 stake_account.staked_amount pool.acc_reward_per_share with
    | none => throw .Overflow
    | some m =>
        let acc_reward := m / REWARD_PRECISION
        pure ((acc_reward - stake_account.reward_debt) % 2 ^ 64)

/-- The pending-reward settlement step of `stake` (`lib.rs:61-67`): an
account that is already staking first accrues
`calculate_pending_rewards` into `pending_rewards` with `checked_add`. -/
def stakeSettlePending (stake_account : StakeAccount) (pool : StakingPool) :
    Except StakingError StakeAccount :=
  if 0 < stake_account.staked_amount then do
    let pending ← calculatePendingRewards stake_account pool
    match checkedAdd64 stake_account.pending_rewards pending with
    | some pr => pure { stake_account with pending_rewards := pr }
    | none => throw StakingError.Overflow
  else
    pure stake_account

/-- `stake` (`lib.rs:50-101`): guards (pool not paused, `amount >=
min_stake_amount`), accrues pool rewards, settles any pending rewards of an
existing position, then raises `staked_amount`, re-derives `reward_debt`
from the updated accumulator and raises `total_staked`.  The lamport
transfer into the vault is an external effect. -/
def stake (pool : StakingPool) (stake_account : StakeAccount) (owner : Nat)
    (amount : Nat) (now : Int) :
    Except StakingError (StakingPool × StakeAccount) := do
  if pool.paused then
    throw .PoolPaused
  else if amount < pool.min_stake_amount then
    throw .InsufficientStakeAmount
  else
    let pool ← updatePoolRewards pool now
    let stake_account ← stakeSettlePending stake_account pool
    let staked ← match checkedAdd64 stake_account.staked_amount amount with
      | some s => pure s
      | none => throw StakingError.Overflow
    let debtRaw ← match checkedMul128 staked pool.acc_reward_per_share with
      | some d => pure d
      | none => throw StakingError.Overflow
    let total ← match checkedAdd64 pool.total_staked amount with
      | some t => pure t
      | none => throw StakingError.Overflow
    pure ({ pool with total_staked := total },
          { stake_account with
            owner := owner
            staked_amount := staked
            staked_at := now
            reward_debt := debtRaw / REWARD_PRECISION })

/-- `request_unstake` (`lib.rs:104-121`): records the request time and
amount; moves no funds.  The pool is only read. -/
def requestUnstake (pool : StakingPool) (stake_account : StakeAccount)
    (amount : Nat) (now : Int) : Except StakingError StakeAccount :=
  if pool.paused then
    throw .PoolPaused
  else if ¬ stake_account.unstake_requested_at = 0 then
    throw .UnstakeAlreadyRequested
  else if ¬ amount ≤ stake_account.staked_amount then
    throw .ExcessiveUnstakeAmount
  else if ¬ 0 < amount then
    throw .InsufficientStakedBalance
  else
    pure { stake_account with unstake_requested_at := now, unstake_amount := amount }

/-- `complete_unstake` (`lib.rs:124-175`): guards (not paused, a pending
request exists, `now >= unstake_requested_at + unstake_cooldown` with the
deadline formed by `i64::checked_add`), then accrues pool rewards, settles
pending rewards, lowers `staked_amount` by the requested amount with
`checked_sub`, clears the request, re-derives `reward_debt` and lowers
`total_staked`.  The lamport transfer out of the vault is external. -/
def completeUnstake (pool : StakingPool) (stake_account : StakeAccount)
    (now : Int) : Except StakingError (StakingPool × StakeAccount) := do
  if pool.paused then
    throw .PoolPaused
  else if ¬ 0 < stake_account.unstake_requested_at then
    throw .NoPendingUnstake
  else
    let cooldown_end ← match checkedAddI64 stake_account.unstake_requested_at pool.unstake_cooldown with
      | some e => pure e
      | none => throw StakingError.Overflow
    if ¬ cooldown_end ≤ now then
      throw .CooldownNotElapsed
    else
      let unstake_amount := stake_account.unstake_amount
      let pool ← updatePoolRewards pool now
      let pending ← calculatePendingRewards stake_account pool
      let pr ← match checkedAdd64 stake_account.pending_rewards pending with
        | some pr => pure pr
        | none => throw StakingError.Overflow
      let staked ← match checkedSub stake_account.staked_amount unstake_amount with
        | some s => pure s
        | none => throw StakingError.Overflow
      let debtRaw ← match checkedMul128 staked pool.acc_reward_per_share with
        | some d => pure d
        | none => throw StakingError.Overflow
      let total ← match checkedSub pool.total_staked unstake_amount with
        | some t => pure t
        | none => throw StakingError.Overflow
      pure ({ pool with total_staked := total },
            { stake_account with
              pending_rewards := pr
              staked_amount := staked
              unstake_requested_at := 0
              unstake_amount := 0
              reward_debt := debtRaw / REWARD_PRECISION })

/-- `claim_rewards` (`lib.rs:178-213`): accrues pool rewards, pays out
`pending_rewards + newly accrued` (which must be positive), zeroes
`pending_rewards`, re-derives `reward_debt` and bumps
`total_rewards_claimed`.  Returns the payout alongside the new state. -/
def claimRewards (pool : StakingPool) (stake_account : StakeAccount)
    (now : Int) : Except StakingError (StakingPool × StakeAccount × Nat) := do
  if pool.paused then
    throw .PoolPaused
  else
    let pool ← updatePoolRewards pool now
    let pending ← calculatePendingRewards stake_account pool
    let total_rewards ← match checkedAdd64 stake_account.pending_rewards pending with
      | some t => pure t
      | none => throw StakingError.Overflow
    if ¬ 0 < total_rewards then
      throw .NoRewardsAvailable
    else
      let debtRaw ← match checkedMul128 stake_account.staked_amount pool.acc_reward_per_share with
        | some d => pure d
        | none => throw StakingError.Overflow
      let claimed ← match checkedAdd64 stake_account.total_rewards_claimed total_rewards with
        | some c => pure c
        | none => throw StakingError.Overflow
      pure (pool,
            { stake_account with
              pending_rewards := 0
              reward_debt := debtRaw / REWARD_PRECISION
              total_rewards_claimed := claimed },
            total_rewards)

/-- `slash` (`lib.rs:216-270`): guards (`0 < amount <= staked_amount`; the
oracle-authority check is an account constraint, external here), accrues
pool rewards, lowers `staked_amount`, bumps the `u8` `slash_count`,
re-derives `reward_debt`, lowers `total_staked` and appends a
`SlashRecord`. -/
def slash (pool : StakingPool) (stake_account : StakeAccount) (amount : Nat)
    (reason : SlashReason) (oracle : Nat) (now : Int) :
    Except StakingError (StakingPool × StakeAccount × SlashRecord) := do
  if ¬ 0 < amount then
    throw .InvalidSlashAmount
  else if ¬ amount ≤ stake_account.staked_amount then
    throw .InvalidSlashAmount
  else
    let pool ← updatePoolRewards pool now
    let staked ← match checkedSub stake_account.staked_amount amount with
      | some s => pure s
      | none => throw StakingError.Overflow
    let sc ← match checkedAdd8 stake_account.slash_count 1 with
      | some c => pure c
      | none => throw StakingError.Overflow
    let debtRaw ← match checkedMul128 staked pool.acc_reward_per_share with
      | some d => pure d
      | none => throw StakingError.Overflow
    let total ← match checkedSub pool.total_staked amount with
      | some t => pure t
      | none => throw StakingError.Overflow
    let record : SlashRecord :=
      { staker := stake_account.owner, amount := amount, reason := reason,
        timestamp := now, slashed_by := oracle }
    pure ({ pool with total_staked := total },
          { stake_account with
            staked_amount := staked
            slash_count := sc
            reward_debt := debtRaw / REWARD_PRECISION },
          record)

/-! ## Basic lemmas about the machine-integer helpers -/

theorem checkedAdd8_some {a b c : Nat} (h : checkedAdd8 a b = some c) :
    c = a + b ∧ a + b ≤ U8MAX := by
  unfold checkedAdd8 at h
  split at h
  · exact ⟨(Option.some.injEq _ _ ▸ h).symm, by assumption⟩
  · exact absurd h (by simp)

theorem checkedAdd64_some {a b c : Nat} (h : checkedAdd64 a b = some c) :
    c = a + b ∧ a + b ≤ U64MAX := by
  unfold checkedAdd64 at h
  split at h
  · exact ⟨(Option.some.injEq _ _ ▸ h).symm, by assumption⟩
  · exact absurd h (by simp)

theorem checkedMul128_some {a b c : Nat} (h : checkedMul128 a b = some c) :
    c = a * b ∧ a * b ≤ U128MAX := by
  unfold checkedMul128 at h
  split at h
  · exact ⟨(Option.some.injEq _ _ ▸ h).symm, by assumption⟩
  · exact absurd h (by simp)

theorem checkedSub_some {a b c : Nat} (h : checkedSub a b = some c) :
    c = a - b ∧ b ≤ a := by
  unfold checkedSub at h
  split at h
  · exact ⟨(Option.some.injEq _ _ ▸ h).symm, by assumption⟩
  · exact absurd h (by simp)

theorem satAdd64_le (a b : Nat) : satAdd64 a b ≤ U64MAX :=
  Nat.min_le_right _ _

/-! ## Lemmas about `apply_time_decay` -/

theorem applyTimeDecay_score_le (config : ReputationConfig) (a : ReputationAccount)
    (t : Int) : (applyTimeDecay config a t).score ≤ a.score := by
  unfold applyTimeDecay
  dsimp only
  split
  · split
    · exact Nat.sub_le _ _
    · exact Nat.le_refl _
  · exact Nat.le_refl _

theorem applyTimeDecay_noop (config : ReputationConfig) (a : ReputationAccount)
    (t : Int) (h : t - a.last_updated < 2592000) : applyTimeDecay config a t = a := by
  unfold applyTimeDecay
  dsimp only
  split
  · rename_i h1
    split
    · rename_i h2
      exfalso
      have hlt : (t - a.last_updated).toNat < 2592000 := by omega
      rw [show (30 * 24 * 60 * 60 : Nat) = 2592000 from rfl,
        Nat.div_eq_of_lt hlt] at h2
      exact Nat.lt_irrefl 0 h2
    · rfl
  · rfl

/-! ## Claim C1 -/

def c1ceConfig : ReputationConfig :=
  { base_score := 500, decay_rate := 0, verification_bonus := 600, credential_bonus := 30 }

def c1ceConfigState : ReputationConfigState :=
  { base_score := 500, max_score := 1000, min_score := 0, decay_rate_bps := 100,
    last_decay_run := 0 }

def c1ceAccount : ReputationAccount :=
  { identity := 1, score := 500, last_updated := 0, verification_count := 0,
    credential_count := 0, activity_count := 0, challenges_received := 0,
    challenges_won := 0 }

/-- C1, counterexample.  With the configured `max_score = 1000` (the
`state.rs` config is the only place a `min_score`/`max_score` exists) and a
`verification_bonus` of 600, a single `record_verification` takes the score
from 500 to 1100, strictly above `max_score`: the engine never reads the
configured bounds (its saturation points are `0` and `u64::MAX`), and the
account it mutates stores no tier at all. -/
theorem c1_counterexample :
    (recordVerification c1ceConfig c1ceAccount 1).map ReputationAccount.score = some 1100 ∧
    c1ceConfigState.max_score = 1000 ∧
    ¬ 1100 ≤ c1ceConfigState.max_score := by decide

theorem applyRepOp_score_le (config : ReputationConfig) (a b : ReputationAccount)
    (op : RepOp) (ha : a.score ≤ U64MAX) (h : applyRepOp config a op = some b) :
    b.score ≤ U64MAX := by
  cases op with
  | recVerification now =>
      simp only [applyRepOp, recordVerification, Option.map_eq_some'] at h
      obtain ⟨vc, _, hb⟩ := h
      rw [← hb]
      exact satAdd64_le _ _
  | recCredential now =>
      simp only [applyRepOp, recordCredential, Option.map_eq_some'] at h
      obtain ⟨cc, _, hb⟩ := h
      rw [← hb]
      exact satAdd64_le _ _
  | recActivity ty now =>
      simp only [applyRepOp, recordActivity, Option.map_eq_some'] at h
      obtain ⟨ac, _, hb⟩ := h
      rw [← hb]
      exact satAdd64_le _ _
  | resolve w p now =>
      cases w with
      | true =>
          simp only [applyRepOp, resolveChallenge, if_pos, Option.map_eq_some'] at h
          obtain ⟨cw, _, hb⟩ := h
          rw [← hb]
          exact ha
      | false =>
          simp only [applyRepOp, resolveChallenge, Bool.false_eq_true, if_false,
            Option.some.injEq] at h
          rw [← h]
          exact Nat.le_trans (Nat.sub_le _ _) ha

/-- C1, amended.  The only bounds the reputation engine maintains are the
`u64` saturation points: for every sequence of reputation-mutating
instructions (`record_verification`, `record_credential`, `record_activity`,
`resolve_challenge`, each applying `apply_time_decay` where the source does),
the score stays in `[0, u64::MAX]` — additions saturate at `u64::MAX`,
subtractions at 0.  The configured `min_score`/`max_score` of the `state.rs`
config are never read, and no tier is stored on the mutated account. -/
theorem c1_score_saturating_bounds (config : ReputationConfig)
    (a a' : ReputationAccount) (ops : List RepOp) (ha : a.score ≤ U64MAX)
    (h : runRepOps config a ops = some a') : a'.score ≤ U64MAX := by
  induction ops generalizing a with
  | nil =>
      simp only [runRepOps, Option.some.injEq] at h
      exact h ▸ ha
  | cons op ops ih =>
      simp only [runRepOps, Option.bind_eq_some] at h
      obtain ⟨b, hb, hrest⟩ := h
      exact ih b (applyRepOp_score_le config a b op ha hb) hrest

def c1wOps : List RepOp :=
  [.recVerification 1, .resolve false 100 2, .recActivity 0 3, .recCredential 2592001]

/-- C1 witness: a concrete four-instruction run. -/
theorem c1_score_saturating_bounds_witness :
    ({ identity := 1, score := 1040, last_updated := 2592001, verification_count := 1,
       credential_count := 1, activity_count := 1, challenges_received := 0,
       challenges_won := 0 : ReputationAccount }).score ≤ U64MAX := by
  refine c1_score_saturating_bounds c1ceConfig c1ceAccount _ c1wOps (by decide) ?_
  decide

/-! ## Claim C7 -/

def c7ceConfig : ReputationConfig :=
  { base_score := 500, decay_rate := 100, verification_bonus := 50, credential_bonus := 30 }

def c7ceAccount : ReputationAccount :=
  { identity := 1, score := 1000, last_updated := 0, verification_count := 0,
    credential_count := 0, activity_count := 0, challenges_received := 0,
    challenges_won := 0 }

/-- C7, counterexample.  Exactly one day (86400 s) after the last update,
with `decay_rate = 100`: the claimed rule
(`days = 1`, `decay = score * rate * days / 10000`) would lower a score of
1000 to 990, but `apply_time_decay` divides the elapsed time by
`30*24*60*60` (monthly periods), gets 0 periods and leaves the score at
1000 — decay is neither daily nor proportional to the score. -/
theorem c7_counterexample :
    (applyTimeDecay c7ceConfig c7ceAccount 86400).score = 1000 ∧
    applyTimeDecaySpec c7ceConfig.decay_rate 0 c7ceAccount.score
      c7ceAccount.last_updated 86400 = 990 ∧
    ¬ (applyTimeDecay c7ceConfig c7ceAccount 86400).score =
        applyTimeDecaySpec c7ceConfig.decay_rate 0 c7ceAccount.score
          c7ceAccount.last_updated 86400 := by decide

/-- C7, amended.  `apply_time_decay` works in 30-day periods
(`periods = floor((now - last_updated) / 2592000)`): for `periods > 0` the
score drops by the flat amount `decay_rate * periods` (computed with
`u64::checked_mul`, falling back to the whole score on overflow) with
saturating subtraction; the score never increases, and any call within
2592000 seconds of `last_updated` — in particular a second call within the
same day — leaves the account unchanged. -/
theorem c7_monthly_flat_decay :
    (∀ config a t, (applyTimeDecay config a t).score ≤ a.score) ∧
    (∀ config a t, t - a.last_updated < 2592000 → applyTimeDecay config a t = a) ∧
    (∀ config a t, 0 < t - a.last_updated →
      0 < (t - a.last_updated).toNat / 2592000 →
      (applyTimeDecay config a t).score =
        a.score -
          (checkedMul64 config.decay_rate ((t - a.last_updated).toNat / 2592000)).getD
            a.score) := by
  refine ⟨applyTimeDecay_score_le, applyTimeDecay_noop, ?_⟩
  intro config a t h1 h2
  unfold applyTimeDecay
  dsimp only
  rw [if_pos h1, show (30 * 24 * 60 * 60 : Nat) = 2592000 from rfl, if_pos h2]

/-- C7 witness: the amended theorem at concrete inputs — a decay call 60
days after the last update removes `100 * 2` points; a call 86399 s after
is a no-op. -/
theorem c7_monthly_flat_decay_witness :
    (applyTimeDecay c7ceConfig c7ceAccount 5184000).score ≤ c7ceAccount.score ∧
    applyTimeDecay c7ceConfig c7ceAccount 86399 = c7ceAccount ∧
    (applyTimeDecay c7ceConfig c7ceAccount 5184000).score =
      c7ceAccount.score -
        (checkedMul64 c7ceConfig.decay_rate
          ((5184000 - c7ceAccount.last_updated).toNat / 2592000)).getD
          c7ceAccount.score := by
  refine ⟨c7_monthly_flat_decay.1 c7ceConfig c7ceAccount 5184000,
    c7_monthly_flat_decay.2.1 c7ceConfig c7ceAccount 86399 (by decide),
    c7_monthly_flat_decay.2.2 c7ceConfig c7ceAccount 5184000 (by decide) (by decide)⟩

/-! ## Claim C10 -/

/-- C10.  `resolve_challenge`: a won challenge only bumps `challenges_won`
(score untouched); a lost challenge only lowers the score by `penalty` with
`saturating_sub` (`challenges_won` untouched), hitting exactly 0 whenever
`penalty >= score` — the score cannot underflow. -/
theorem c10_resolve_challenge :
    (∀ (a : ReputationAccount) (p : Nat) (now : Int),
      a.challenges_won < U64MAX →
      resolveChallenge a true p now =
        some { a with challenges_won := a.challenges_won + 1, last_updated := now }) ∧
    (∀ (a : ReputationAccount) (p : Nat) (now : Int),
      resolveChallenge a false p now =
        some { a with score := a.score - p, last_updated := now }) ∧
    (∀ (a : ReputationAccount) (p : Nat) (now : Int),
      a.score ≤ p →
      (resolveChallenge a false p now).map ReputationAccount.score = some 0) := by
  refine ⟨fun a p now h => ?_, fun a p now => rfl, fun a p now h => ?_⟩
  · simp only [resolveChallenge, if_pos, checkedAdd64]
    rw [if_pos (by omega : a.challenges_won + 1 ≤ U64MAX)]
    rfl
  · simp only [resolveChallenge, Bool.false_eq_true, if_false, Option.map_some',
      Option.some.injEq]
    exact Nat.sub_eq_zero_of_le h

def c10wAccount : ReputationAccount :=
  { identity := 3, score := 700, last_updated := 10, verification_count := 2,
    credential_count := 1, activity_count := 4, challenges_received := 2,
    challenges_won := 1 }

/-- C10 witness: concrete won and lost challenges. -/
theorem c10_resolve_challenge_witness :
    resolveChallenge c10wAccount true 50 20 =
      some { c10wAccount with challenges_won := 2, last_updated := 20 } ∧
    resolveChallenge c10wAccount false 50 20 =
      some { c10wAccount with score := 650, last_updated := 20 } ∧
    (resolveChallenge c10wAccount false 900 20).map ReputationAccount.score = some 0 := by
  refine ⟨?_, ?_, c10_resolve_challenge.2.2 c10wAccount 900 20 (by decide)⟩
  · have h := c10_resolve_challenge.1 c10wAccount 50 20 (by decide)
    rw [h]
    decide
  · have h := c10_resolve_challenge.2.1 c10wAccount 50 20
    rw [h]
    decide

/-! ## Lemmas about the `Except` monad operations -/

theorem except_throw_def {ε α : Type} (e : ε) : (throw e : Except ε α) = Except.error e := rfl

theorem except_pure_def {ε α : Type} (a : α) : (pure a : Except ε α) = Except.ok a := rfl

theorem except_bind_ok {ε α β : Type} (a : α) (f : α → Except ε β) :
    (Except.ok a : Except ε α) >>= f = f a := rfl

theorem except_bind_error {ε α β : Type} (e : ε) (f : α → Except ε β) :
    (Except.error e : Except ε α) >>= f = Except.error e := rfl

/-! ## Lemmas about `finalize_verification` -/

theorem finalize_ok_of (config : OracleConfig) (req : VerificationRequest)
    (h1 : req.status = .InProgress)
    (h2 : config.required_confirmations ≤ (req.confirmations + req.rejections) % 256) :
    finalizeVerification config req =
      Except.ok { req with
        result := some (decide (req.rejections < req.confirmations)),
        status := if req.rejections < req.confirmations then .Verified else .Rejected } := by
  unfold finalizeVerification
  dsimp only
  rw [if_neg (by simp [h1]), if_neg (by simpa using h2)]
  by_cases hv : req.rejections < req.confirmations
  · rw [if_pos (by simpa using hv), if_pos hv]
    rfl
  · rw [if_neg (by simpa using hv), if_neg hv]
    rfl

theorem finalize_ok_inv (config : OracleConfig) (req r : VerificationRequest)
    (h : finalizeVerification config req = Except.ok r) :
    req.status = .InProgress ∧
    config.required_confirmations ≤ (req.confirmations + req.rejections) % 256 ∧
    r = { req with
      result := some (decide (req.rejections < req.confirmations)),
      status := if req.rejections < req.confirmations then .Verified else .Rejected } := by
  unfold finalizeVerification at h
  dsimp only at h
  split at h
  · exact Except.noConfusion h
  · rename_i hs
    split at h
    · exact Except.noConfusion h
    · rename_i ht
      refine ⟨not_not.mp hs, not_not.mp ht, ?_⟩
      split at h
      · rename_i hv
        rw [except_pure_def, Except.ok.injEq] at h
        rw [← h, if_pos (by simpa using hv)]
      · rename_i hv
        rw [except_pure_def, Except.ok.injEq] at h
        rw [← h, if_neg (by simpa using hv)]

theorem finalize_error_of_terminal (config : OracleConfig) (req : VerificationRequest)
    (h : ¬ req.status = .InProgress) :
    finalizeVerification config req = Except.error .RequestNotPending := by
  unfold finalizeVerification
  dsimp only
  rw [if_pos h]
  rfl

theorem expire_error_of_terminal (req : VerificationRequest) (now : Int)
    (h : ¬ (req.status = .Pending ∨ req.status = .InProgress)) :
    expireVerification req now = Except.error .AlreadyFinalized := by
  unfold expireVerification
  rw [if_pos h]
  rfl

theorem submit_error_of_terminal (node : OracleNode) (req : VerificationRequest)
    (v : Bool) (now : Int)
    (h : ¬ (req.status = .Pending ∨ req.status = .InProgress)) :
    submitVerification node req v now =
      Except.error
        (if node.status = .Active then OracleError.RequestNotPending
         else .OracleNotActive) := by
  unfold submitVerification
  by_cases hn : node.status = .Active
  · rw [if_neg (by simp [hn]), if_pos h, if_pos hn]
    rfl
  · rw [if_pos hn, if_neg hn]
    rfl

/-! ## Claim C2 -/

def c2Config : OracleConfig :=
  { min_oracle_stake := 0, verification_fee := 10, required_confirmations := 3,
    verification_timeout := 1000, slash_percentage_bps := 100,
    active_oracle_count := 4, total_verifications := 1 }

def c2ReqA : VerificationRequest :=
  { identity := 42, verification_type := 0, status := .InProgress, fee_paid := 10,
    created_at := 0, deadline := 1000, confirmations := 2, rejections := 1,
    responded_oracles := [1, 2, 3], result := none }

def c2ReqB : VerificationRequest :=
  { identity := 43, verification_type := 1, status := .InProgress, fee_paid := 10,
    created_at := 0, deadline := 1000, confirmations := 1, rejections := 2,
    responded_oracles := [1, 2, 3], result := none }

def c2ReqTie : VerificationRequest :=
  { identity := 44, verification_type := 2, status := .InProgress, fee_paid := 10,
    created_at := 0, deadline := 1000, confirmations := 2, rejections := 2,
    responded_oracles := [1, 2, 3, 4], result := none }

/-- C2.  `finalize_verification` succeeds exactly on an InProgress request
with `confirmations + rejections >= required_confirmations`, and then sets
`result = Some(confirmations > rejections)` and the matching terminal
status; with 2 confirmations / 1 rejection (quorum 3) it finalizes
Verified, with 1/2 Rejected, and a 2/2 tie finalizes Rejected
(`result = Some(false)`).  (The `u8` vote total cannot exceed
`MAX_ORACLES = 10` on reachable requests, hence the `≤ 255` hypothesis.) -/
theorem c2_finalize_majority :
    (∀ config (req : VerificationRequest),
      req.confirmations + req.rejections ≤ 255 →
      ((∃ r, finalizeVerification config req = Except.ok r) ↔
        (req.status = .InProgress ∧
          config.required_confirmations ≤ req.confirmations + req.rejections))) ∧
    (∀ config req r, finalizeVerification config req = Except.ok r →
      r.result = some (decide (req.rejections < req.confirmations)) ∧
      r.status = (if req.rejections < req.confirmations then .Verified else .Rejected) ∧
      r.confirmations = req.confirmations ∧ r.rejections = req.rejections) ∧
    finalizeVerification c2Config c2ReqA =
      Except.ok { c2ReqA with status := .Verified, result := some true } ∧
    finalizeVerification c2Config c2ReqB =
      Except.ok { c2ReqB with status := .Rejected, result := some false } ∧
    finalizeVerification c2Config c2ReqTie =
      Except.ok { c2ReqTie with status := .Rejected, result := some false } := by
  refine ⟨?_, ?_, by decide, by decide, by decide⟩
  · intro config req hle
    have hmod : (req.confirmations + req.rejections) % 256 =
        req.confirmations + req.rejections := Nat.mod_eq_of_lt (by omega)
    constructor
    · rintro ⟨r, hr⟩
      obtain ⟨h1, h2, -⟩ := finalize_ok_inv config req r hr
      rw [hmod] at h2
      exact ⟨h1, h2⟩
    · rintro ⟨h1, h2⟩
      exact ⟨_, finalize_ok_of config req h1 (by rw [hmod]; exact h2)⟩
  · intro config req r hr
    obtain ⟨-, -, hr'⟩ := finalize_ok_inv config req r hr
    rw [hr']
    exact ⟨rfl, rfl, rfl, rfl⟩

/-- C2 witness: the universally quantified parts at the concrete scenario
request `c2ReqA`. -/
theorem c2_finalize_majority_witness :
    ((∃ r, finalizeVerification c2Config c2ReqA = Except.ok r) ↔
      (c2ReqA.status = .InProgress ∧
        c2Config.required_confirmations ≤ c2ReqA.confirmations + c2ReqA.rejections)) ∧
    ({ c2ReqA with status := .Verified, result := some true} :
        VerificationRequest).result =
      some (decide (c2ReqA.rejections < c2ReqA.confirmations)) := by
  constructor
  · exact c2_finalize_majority.1 c2Config c2ReqA (by decide)
  · exact (c2_finalize_majority.2.1 c2Config c2ReqA _ (by decide)).1

/-! ## Claim C3 -/

def c3Config : OracleConfig :=
  { min_oracle_stake := 0, verification_fee := 10, required_confirmations := 3,
    verification_timeout := 1000, slash_percentage_bps := 100,
    active_oracle_count := 4, total_verifications := 1 }

def c3Req : VerificationRequest :=
  { identity := 50, verification_type := 0, status := .InProgress, fee_paid := 10,
    created_at := 0, deadline := 1000, confirmations := 2, rejections := 1,
    responded_oracles := [1, 2, 3], result := none }

/-- C3, counterexample.  A second `finalize_verification` on an
already-finalized request does fail, but with `RequestNotPending` (the
status guard `require!(status == InProgress)` fires) — not with the
`AlreadyFinalized` error the claim names (that variant is only raised by
`expire_verification`). -/
theorem c3_counterexample :
    (do
      let r1 ← finalizeVerification c3Config c3Req
      finalizeVerification c3Config r1) = Except.error OracleError.RequestNotPending ∧
    ¬ OracleError.RequestNotPending = OracleError.AlreadyFinalized := by decide

/-- C3, amended.  Once `finalize_verification` succeeds, the request's
`result` is set to the majority outcome and the state is terminal: a second
finalize fails with `RequestNotPending` (not `AlreadyFinalized`), expiring
it fails with `AlreadyFinalized`, and any further vote fails
(`OracleNotActive` or `RequestNotPending`); every such failure aborts the
transaction, so the request — in particular its `result` — never changes
after finalization. -/
theorem c3_result_immutable (config : OracleConfig) (req r : VerificationRequest)
    (h : finalizeVerification config req = Except.ok r) :
    r.result = some (decide (req.rejections < req.confirmations)) ∧
    (∀ config2, finalizeVerification config2 r = Except.error .RequestNotPending) ∧
    (∀ now, expireVerification r now = Except.error .AlreadyFinalized) ∧
    (∀ node v now, submitVerification node r v now =
      Except.error
        (if node.status = .Active then OracleError.RequestNotPending
         else .OracleNotActive)) := by
  obtain ⟨h1, h2, hr⟩ := finalize_ok_inv config req r h
  have hstatus : r.status = .Verified ∨ r.status = .Rejected := by
    rw [hr]
    by_cases hv : req.rejections < req.confirmations
    · left; simp [hv]
    · right; simp [hv]
  have hterm : ¬ (r.status = .Pending ∨ r.status = .InProgress) := by
    rcases hstatus with hs | hs <;> rw [hs] <;> rintro (h' | h') <;> exact
      VerificationStatus.noConfusion h'
  refine ⟨?_, ?_, ?_, ?_⟩
  · rw [hr]
  · intro config2
    refine finalize_error_of_terminal config2 r ?_
    rcases hstatus with hs | hs <;> rw [hs] <;> exact fun h' =>
      VerificationStatus.noConfusion h'
  · intro now
    exact expire_error_of_terminal r now hterm
  · intro node v now
    exact submit_error_of_terminal node r v now hterm

def c3wNode : OracleNode :=
  { authority := 5, status := .Active, verifications_submitted := 3,
    successful_verifications := 2, failed_verifications := 1, slash_count := 0,
    registered_at := 0, last_active := 10 }

/-- C3 witness: the amended theorem at the concrete finalized request. -/
theorem c3_result_immutable_witness :
    ({ c3Req with status := .Verified, result := some true} :
        VerificationRequest).result =
      some (decide (c3Req.rejections < c3Req.confirmations)) ∧
    finalizeVerification c3Config { c3Req with status := .Verified, result := some true} =
      Except.error .RequestNotPending ∧
    expireVerification { c3Req with status := .Verified, result := some true} 2000 =
      Except.error .AlreadyFinalized ∧
    submitVerification c3wNode { c3Req with status := .Verified, result := some true} true 20 =
      Except.error
        (if c3wNode.status = .Active then OracleError.RequestNotPending
         else .OracleNotActive) := by
  have h := c3_result_immutable c3Config c3Req
    { c3Req with status := .Verified, result := some true} (by decide)
  exact ⟨h.1, h.2.1 c3Config, h.2.2.1 2000, h.2.2.2 c3wNode true 20⟩

/-! ## Lemmas about `submit_verification` -/

theorem submit_ok_inv (node : OracleNode) (req : VerificationRequest) (v : Bool)
    (now : Int) (n' : OracleNode) (r' : VerificationRequest) (resp : OracleResponse)
    (h : submitVerification node req v now = Except.ok (n', r', resp)) :
    node.status = .Active ∧ (req.status = .Pending ∨ req.status = .InProgress) ∧
    now ≤ req.deadline ∧ node.authority ∉ req.responded_oracles ∧
    req.responded_oracles.length < MAX_ORACLES ∧
    r'.responded_oracles = req.responded_oracles ++ [node.authority] := by
  unfold submitVerification at h
  split at h
  · exact Except.noConfusion h
  split at h
  · exact Except.noConfusion h
  split at h
  · exact Except.noConfusion h
  split at h
  · exact Except.noConfusion h
  split at h
  · exact Except.noConfusion h
  rename_i h1 h2 h3 h4 h5
  refine ⟨not_not.mp h1, not_not.mp h2, not_not.mp h3, h4, not_not.mp h5, ?_⟩
  cases v with
  | true =>
      rw [if_pos rfl] at h
      cases hc : checkedAdd8 req.confirmations 1 with
      | none =>
          rw [hc] at h
          dsimp only at h
          exact Except.noConfusion h
      | some c =>
          rw [hc] at h
          dsimp only at h
          rw [except_pure_def, except_bind_ok] at h
          dsimp only at h
          split at h
          · exact Except.noConfusion h
          · simp only [except_pure_def, Except.ok.injEq, Prod.mk.injEq] at h
            rw [← h.2.1]
            split <;> rfl
  | false =>
      rw [if_neg Bool.false_ne_true] at h
      cases hc : checkedAdd8 req.rejections 1 with
      | none =>
          rw [hc] at h
          dsimp only at h
          exact Except.noConfusion h
      | some c =>
          rw [hc] at h
          dsimp only at h
          rw [except_pure_def, except_bind_ok] at h
          dsimp only at h
          split at h
          · exact Except.noConfusion h
          · simp only [except_pure_def, Except.ok.injEq, Prod.mk.injEq] at h
            rw [← h.2.1]
            split <;> rfl

theorem submit_already_responded (node : OracleNode) (req : VerificationRequest)
    (v : Bool) (now : Int) (h1 : node.status = .Active)
    (h2 : req.status = .Pending ∨ req.status = .InProgress)
    (h3 : now ≤ req.deadline) (h4 : node.authority ∈ req.responded_oracles) :
    submitVerification node req v now = Except.error .AlreadyResponded := by
  unfold submitVerification
  rw [if_neg (not_not_intro h1), if_neg (not_not_intro h2), if_neg (not_not_intro h3),
    if_pos h4]
  rfl

theorem submit_max_oracles (node : OracleNode) (req : VerificationRequest)
    (v : Bool) (now : Int) (h1 : node.status = .Active)
    (h2 : req.status = .Pending ∨ req.status = .InProgress)
    (h3 : now ≤ req.deadline) (h4 : node.authority ∉ req.responded_oracles)
    (h5 : ¬ req.responded_oracles.length < MAX_ORACLES) :
    submitVerification node req v now = Except.error .MaxOraclesReached := by
  unfold submitVerification
  rw [if_neg (not_not_intro h1), if_neg (not_not_intro h2), if_neg (not_not_intro h3),
    if_neg h4, if_pos h5]
  rfl

/-! ## Claim C4 -/

/-- C4.  A request's responder set stays duplicate-free: a successful vote
appends the oracle's key to a set it was not yet in (so `Nodup` is
preserved), a repeat vote by the same oracle fails with `AlreadyResponded`,
and once `MAX_ORACLES = 10` distinct oracles have responded, a vote by an
11th distinct oracle fails with `MaxOraclesReached`. -/
theorem c4_no_duplicate_responders :
    (∀ node req v now (n' : OracleNode) (r' : VerificationRequest) (resp : OracleResponse),
      req.responded_oracles.Nodup →
      submitVerification node req v now = Except.ok (n', r', resp) →
      r'.responded_oracles.Nodup) ∧
    (∀ (node : OracleNode) (req : VerificationRequest) v (now : Int),
      node.status = .Active →
      (req.status = .Pending ∨ req.status = .InProgress) →
      now ≤ req.deadline →
      node.authority ∈ req.responded_oracles →
      submitVerification node req v now = Except.error .AlreadyResponded) ∧
    (∀ (node : OracleNode) (req : VerificationRequest) v (now : Int),
      node.status = .Active →
      (req.status = .Pending ∨ req.status = .InProgress) →
      now ≤ req.deadline →
      node.authority ∉ req.responded_oracles →
      MAX_ORACLES ≤ req.responded_oracles.length →
      submitVerification node req v now = Except.error .MaxOraclesReached) := by
  refine ⟨?_, submit_already_responded, ?_⟩
  · intro node req v now n' r' resp hnd h
    obtain ⟨-, -, -, h4, -, hr⟩ := submit_ok_inv node req v now n' r' resp h
    rw [hr]
    exact hnd.append (List.nodup_singleton _) (List.disjoint_singleton.2 h4)
  · intro node req v now h1 h2 h3 h4 h5
    exact submit_max_oracles node req v now h1 h2 h3 h4 (by omega)

def c4wNode : OracleNode :=
  { authority := 10, status := .Active, verifications_submitted := 4,
    successful_verifications := 3, failed_verifications := 1, slash_count := 0,
    registered_at := 0, last_active := 5 }

def c4wReq : VerificationRequest :=
  { identity := 60, verification_type := 1, status := .Pending, fee_paid := 10,
    created_at := 0, deadline := 1000, confirmations := 2, rejections := 1,
    responded_oracles := [1, 2, 3], result := none }

def c4wReqFull : VerificationRequest :=
  { identity := 61, verification_type := 2, status := .InProgress, fee_paid := 10,
    created_at := 0, deadline := 1000, confirmations := 6, rejections := 4,
    responded_oracles := [0, 1, 2, 3, 4, 5, 6, 7, 8, 9], result := none }

def c4wNodeDup : OracleNode :=
  { c4wNode with authority := 2 }

/-- C4 witness: a concrete successful vote keeps the responder list
duplicate-free; a duplicate vote and an 11th distinct vote fail as stated. -/
theorem c4_no_duplicate_responders_witness :
    ({ c4wReq with
        status := .InProgress
        confirmations := 3
        responded_oracles := [1, 2, 3, 10] } : VerificationRequest).responded_oracles.Nodup ∧
    submitVerification c4wNodeDup c4wReq true 20 = Except.error .AlreadyResponded ∧
    submitVerification c4wNode c4wReqFull false 20 = Except.error .MaxOraclesReached := by
  refine ⟨?_, ?_, ?_⟩
  · exact c4_no_duplicate_responders.1 c4wNode c4wReq true 20
      { c4wNode with verifications_submitted := 5, last_active := 20 }
      { c4wReq with
        status := .InProgress
        confirmations := 3
        responded_oracles := [1, 2, 3, 10] }
      { oracle := 10, verified := true, responded_at := 20 }
      (by decide) (by decide)
  · exact c4_no_duplicate_responders.2.1 c4wNodeDup c4wReq true 20
      (by decide) (by decide) (by decide) (by decide)
  · exact c4_no_duplicate_responders.2.2 c4wNode c4wReqFull false 20
      (by decide) (by decide) (by decide) (by decide) (by decide)

/-! ## Lemmas about `slash_oracle` and `deregister_oracle` -/

theorem slashOracle_ok_inv (config : OracleConfig) (node : OracleNode)
    (config' : OracleConfig) (node' : OracleNode)
    (h : slashOracle config node = Except.ok (config', node')) :
    node'.slash_count = node.slash_count + 1 ∧
    node'.failed_verifications = node.failed_verifications + 1 ∧
    (3 ≤ node.slash_count + 1 →
      node'.status = .Slashed ∧
      config'.active_oracle_count + 1 = config.active_oracle_count) ∧
    (¬ 3 ≤ node.slash_count + 1 → node'.status = node.status ∧ config' = config) := by
  unfold slashOracle at h
  cases hsc : checkedAdd8 node.slash_count 1 with
  | none =>
      rw [hsc] at h
      exact Except.noConfusion h
  | some sc =>
      obtain ⟨hsceq, -⟩ := checkedAdd8_some hsc
      rw [hsc] at h
      dsimp only at h
      rw [except_pure_def, except_bind_ok] at h
      cases hfv : checkedAdd64 node.failed_verifications 1 with
      | none =>
          rw [hfv] at h
          exact Except.noConfusion h
      | some fv =>
          obtain ⟨hfveq, -⟩ := checkedAdd64_some hfv
          rw [hfv] at h
          dsimp only at h
          rw [except_pure_def, except_bind_ok] at h
          subst hsceq hfveq
          split at h
          · rename_i hge
            cases hcnt : checkedSub config.active_oracle_count 1 with
            | none =>
                rw [hcnt] at h
                exact Except.noConfusion h
            | some cnt =>
                obtain ⟨hcnteq, hle⟩ := checkedSub_some hcnt
                rw [hcnt] at h
                dsimp only at h
                rw [except_pure_def, Except.ok.injEq, Prod.mk.injEq] at h
                obtain ⟨hcfg, hnode⟩ := h
                rw [← hnode, ← hcfg]
                exact ⟨rfl, rfl, fun _ => ⟨rfl, by dsimp only; omega⟩,
                  fun hn => absurd hge hn⟩
          · rename_i hge
            rw [except_pure_def, Except.ok.injEq, Prod.mk.injEq] at h
            obtain ⟨hcfg, hnode⟩ := h
            rw [← hnode, ← hcfg]
            exact ⟨rfl, rfl, fun hn => absurd hn hge, fun _ => ⟨rfl, rfl⟩⟩

theorem deregister_ok_inv (config : OracleConfig) (node : OracleNode)
    (config' : OracleConfig) (node' : OracleNode)
    (h : deregisterOracle config node = Except.ok (config', node')) :
    node'.status = .Inactive := by
  unfold deregisterOracle at h
  cases hcnt : checkedSub config.active_oracle_count 1 with
  | none =>
      rw [hcnt] at h
      exact Except.noConfusion h
  | some cnt =>
      rw [hcnt] at h
      dsimp only at h
      rw [except_pure_def, Except.ok.injEq, Prod.mk.injEq] at h
      rw [← h.2]

theorem submit_error_of_not_active (node : OracleNode) (req : VerificationRequest)
    (v : Bool) (now : Int) (h : ¬ node.status = .Active) :
    submitVerification node req v now = Except.error .OracleNotActive := by
  unfold submitVerification
  rw [if_pos h]
  rfl

/-! ## Claim C9 -/

def c9ceConfig : OracleConfig :=
  { min_oracle_stake := 0, verification_fee := 10, required_confirmations := 3,
    verification_timeout := 1000, slash_percentage_bps := 100,
    active_oracle_count := 2, total_verifications := 0 }

def c9ceNode : OracleNode :=
  { authority := 5, status := .Active, verifications_submitted := 0,
    successful_verifications := 0, failed_verifications := 0, slash_count := 0,
    registered_at := 0, last_active := 0 }

/-- C9, counterexample.  The Slashed status is not terminal: after three
slashes move a fresh oracle to Slashed, `deregister_oracle` (which has no
status guard) still succeeds and overwrites the status with Inactive. -/
theorem c9_counterexample :
    (do
      let (cfg1, nd1) ← slashOracle c9ceConfig c9ceNode
      let (cfg2, nd2) ← slashOracle cfg1 nd1
      let (cfg3, nd3) ← slashOracle cfg2 nd2
      let (_, nd4) ← deregisterOracle cfg3 nd3
      pure (nd3.status, nd4.status))
      = Except.ok (OracleStatus.Slashed, OracleStatus.Inactive) ∧
    ¬ OracleStatus.Inactive = OracleStatus.Slashed := by decide

/-- C9, amended.  Whenever `slash_oracle` raises the slash count to 3 or
more, the node's status becomes Slashed and `active_oracle_count` is
decremented; from then on the node is never Active again — `slash_oracle`
keeps it Slashed and `deregister_oracle` can only move it to Inactive — and
every `submit_verification` by a non-Active oracle fails with
`OracleNotActive`. -/
theorem c9_slashed_oracle_rejected :
    (∀ config node config' node',
      slashOracle config node = Except.ok (config', node') →
      node'.slash_count = node.slash_count + 1 ∧
      (3 ≤ node'.slash_count →
        node'.status = .Slashed ∧
        config'.active_oracle_count + 1 = config.active_oracle_count)) ∧
    (∀ (node : OracleNode) (req : VerificationRequest) v (now : Int),
      ¬ node.status = .Active →
      submitVerification node req v now = Except.error .OracleNotActive) ∧
    (∀ config node config' node', ¬ node.status = .Active →
      slashOracle config node = Except.ok (config', node') →
      ¬ node'.status = .Active) ∧
    (∀ config node config' node',
      deregisterOracle config node = Except.ok (config', node') →
      node'.status = .Inactive) := by
  refine ⟨?_, submit_error_of_not_active, ?_, deregister_ok_inv⟩
  · intro config node config' node' h
    obtain ⟨h1, -, h2, -⟩ := slashOracle_ok_inv config node config' node' h
    exact ⟨h1, fun hge => h2 (h1 ▸ hge)⟩
  · intro config node config' node' hA h
    obtain ⟨h1, -, h2, h3⟩ := slashOracle_ok_inv config node config' node' h
    by_cases hge : 3 ≤ node.slash_count + 1
    · rw [(h2 hge).1]
      exact fun hc => OracleStatus.noConfusion hc
    · rw [(h3 hge).1]
      exact hA

def c9wConfig : OracleConfig :=
  { min_oracle_stake := 0, verification_fee := 10, required_confirmations := 3,
    verification_timeout := 1000, slash_percentage_bps := 100,
    active_oracle_count := 5, total_verifications := 7 }

def c9wNode : OracleNode :=
  { authority := 8, status := .Active, verifications_submitted := 6,
    successful_verifications := 4, failed_verifications := 2, slash_count := 2,
    registered_at := 0, last_active := 50 }

def c9wSlashedNode : OracleNode :=
  { c9wNode with status := .Slashed, slash_count := 3, failed_verifications := 3 }

def c9wReq : VerificationRequest :=
  { identity := 70, verification_type := 3, status := .Pending, fee_paid := 10,
    created_at := 0, deadline := 1000, confirmations := 0, rejections := 0,
    responded_oracles := [], result := none }

/-- C9 witness: a third slash of a concrete oracle makes it Slashed with
the active count decremented; its vote is then rejected; a further slash
and a deregistration both leave it non-Active. -/
theorem c9_slashed_oracle_rejected_witness :
    (c9wSlashedNode.slash_count = c9wNode.slash_count + 1 ∧
      (3 ≤ c9wSlashedNode.slash_count →
        c9wSlashedNode.status = .Slashed ∧
        ({ c9wConfig with active_oracle_count := 4 } : OracleConfig).active_oracle_count + 1 =
          c9wConfig.active_oracle_count)) ∧
    submitVerification c9wSlashedNode c9wReq true 60 = Except.error .OracleNotActive ∧
    ¬ ({ c9wSlashedNode with slash_count := 4, failed_verifications := 4 } :
        OracleNode).status = .Active ∧
    ({ c9wSlashedNode with status := .Inactive } : OracleNode).status = .Inactive := by
  refine ⟨c9_slashed_oracle_rejected.1 c9wConfig c9wNode
      { c9wConfig with active_oracle_count := 4 } c9wSlashedNode (by decide),
    c9_slashed_oracle_rejected.2.1 c9wSlashedNode c9wReq true 60 (by decide),
    c9_slashed_oracle_rejected.2.2.1 c9wConfig c9wSlashedNode
      { c9wConfig with active_oracle_count := 4 }
      { c9wSlashedNode with slash_count := 4, failed_verifications := 4 }
      (by decide) (by decide),
    c9_slashed_oracle_rejected.2.2.2 c9wConfig c9wSlashedNode
      { c9wConfig with active_oracle_count := 4 }
      { c9wSlashedNode with status := .Inactive } (by decide)⟩

/-! ## More machine-integer helper lemmas -/

theorem checkedAdd64_eq_some {a b : Nat} (h : a + b ≤ U64MAX) :
    checkedAdd64 a b = some (a + b) := by
  unfold checkedAdd64
  rw [if_pos h]

theorem checkedSub_eq_some {a b : Nat} (h : b ≤ a) :
    checkedSub a b = some (a - b) := by
  unfold checkedSub
  rw [if_pos h]

theorem checkedMul128_eq_some {a b : Nat} (h : a * b ≤ U128MAX) :
    checkedMul128 a b = some (a * b) := by
  unfold checkedMul128
  rw [if_pos h]

/-! ## Claim C6 -/

def c6Pool : StakingPool :=
  { total_staked := 0, min_stake_amount := 1000, reward_rate_bps := 1000,
    unstake_cooldown := 100, last_reward_distribution := 0,
    acc_reward_per_share := 0, paused := false }

def c6Account : StakeAccount :=
  { owner := 7, staked_amount := 0, staked_at := 0, pending_rewards := 0,
    reward_debt := 0, unstake_requested_at := 0, unstake_amount := 0,
    total_rewards_claimed := 0, slash_count := 0 }

/-- C6.  In a pool with `reward_rate_bps = 1000` and `acc_reward_per_share
= 0`, a single staker depositing 1,000,000 units at time 0 and calling
`claim_rewards` 365 days (31,536,000 s) later with no other activity is
paid exactly 100,000 units: the fixed-point accumulator arithmetic incurs
no truncation loss on these numbers. -/
theorem c6_one_year_reward_scenario :
    (do
      let (p1, a1) ← stake c6Pool c6Account 7 1000000 0
      let (_, _, payout) ← claimRewards p1 a1 31536000
      pure payout) = Except.ok 100000 ∧
    (31536000 : Int) = 365 * 24 * 60 * 60 := by decide

/-! ## Lemmas about `complete_unstake` -/

theorem completeUnstake_cooldown_error (pool : StakingPool) (acct : StakeAccount)
    (now e : Int) (hpause : pool.paused = false)
    (hreq : 0 < acct.unstake_requested_at)
    (hadd : checkedAddI64 acct.unstake_requested_at pool.unstake_cooldown = some e)
    (hlt : now < e) :
    completeUnstake pool acct now = Except.error .CooldownNotElapsed := by
  unfold completeUnstake
  rw [if_neg (by simp [hpause]), if_neg (not_not_intro hreq), hadd]
  dsimp only
  rw [except_pure_def, except_bind_ok, if_pos (by omega : ¬ e ≤ now)]
  rfl

theorem completeUnstake_ok_of (pool : StakingPool) (acct : StakeAccount)
    (now e : Int) (pool1 : StakingPool) (pending : Nat)
    (hpause : pool.paused = false)
    (hreq : 0 < acct.unstake_requested_at)
    (hadd : checkedAddI64 acct.unstake_requested_at pool.unstake_cooldown = some e)
    (hcool : e ≤ now)
    (hup : updatePoolRewards pool now = Except.ok pool1)
    (hpend : calculatePendingRewards acct pool1 = Except.ok pending)
    (h64 : acct.pending_rewards + pending ≤ U64MAX)
    (hsub : acct.unstake_amount ≤ acct.staked_amount)
    (hmul : (acct.staked_amount - acct.unstake_amount) * pool1.acc_reward_per_share ≤ U128MAX)
    (htot : acct.unstake_amount ≤ pool1.total_staked) :
    completeUnstake pool acct now =
      Except.ok ({ pool1 with total_staked := pool1.total_staked - acct.unstake_amount },
        { acct with
          pending_rewards := acct.pending_rewards + pending
          staked_amount := acct.staked_amount - acct.unstake_amount
          unstake_requested_at := 0
          unstake_amount := 0
          reward_debt := (acct.staked_amount - acct.unstake_amount) *
            pool1.acc_reward_per_share / REWARD_PRECISION }) := by
  unfold completeUnstake
  rw [if_neg (by simp [hpause]), if_neg (not_not_intro hreq), hadd]
  dsimp only
  rw [except_pure_def, except_bind_ok, if_neg (not_not_intro hcool), hup, except_bind_ok,
    hpend, except_bind_ok, checkedAdd64_eq_some h64]
  dsimp only
  rw [except_pure_def, except_bind_ok, checkedSub_eq_some hsub]
  dsimp only
  rw [except_pure_def, except_bind_ok, checkedMul128_eq_some hmul]
  dsimp only
  rw [except_pure_def, except_bind_ok, checkedSub_eq_some htot]
  dsimp only
  rw [except_pure_def, except_bind_ok, except_pure_def]

/-! ## Claim C5 -/

def c5cePool : StakingPool :=
  { total_staked := 0, min_stake_amount := 100, reward_rate_bps := 0,
    unstake_cooldown := 50, last_reward_distribution := 0,
    acc_reward_per_share := 0, paused := false }

def c5ceAccount : StakeAccount :=
  { owner := 7, staked_amount := 0, staked_at := 0, pending_rewards := 0,
    reward_debt := 0, unstake_requested_at := 0, unstake_amount := 0,
    total_rewards_claimed := 0, slash_count := 0 }

/-- C5, counterexample.  After staking 100, requesting an unstake of 100 at
`t = 100` (cooldown 50) and then being slashed by 60, the account reaches
the cooldown end `t = 150 = 100 + 50` with `staked_amount = 40 <
unstake_amount = 100`: the pool is not paused, yet `complete_unstake` at
the exact cooldown instant fails (the `checked_sub` on `staked_amount`
aborts with `Overflow`) instead of succeeding as claimed. -/
theorem c5_counterexample :
    (do
      let (p1, a1) ← stake c5cePool c5ceAccount 7 100 0
      let a2 ← requestUnstake p1 a1 100 100
      let (p2, a3, _) ← slash p1 a2 60 .InvalidVerification 9 110
      pure (p2.paused, a3.unstake_requested_at, p2.unstake_cooldown,
        a3.staked_amount, a3.unstake_amount))
      = Except.ok (false, 100, 50, 40, 100) ∧
    (do
      let (p1, a1) ← stake c5cePool c5ceAccount 7 100 0
      let a2 ← requestUnstake p1 a1 100 100
      let (p2, a3, _) ← slash p1 a2 60 .InvalidVerification 9 110
      completeUnstake p2 a3 150)
      = Except.error StakingError.Overflow ∧
    (100 : Int) + 50 = 150 := by decide

/-- C5, amended.  With a pending unstake request and the pool not paused,
`complete_unstake` fails with `CooldownNotElapsed` whenever
`now < unstake_requested_at + unstake_cooldown`, and succeeds at the first
instant `now = unstake_requested_at + unstake_cooldown` — decreasing
`staked_amount` by the requested amount and clearing the request —
provided additionally that the requested amount still does not exceed
`staked_amount` (an intervening slash can break this) and none of the
checked reward/total arithmetic overflows. -/
theorem c5_complete_unstake_cooldown :
    (∀ (pool : StakingPool) (acct : StakeAccount) (now e : Int),
      pool.paused = false →
      0 < acct.unstake_requested_at →
      checkedAddI64 acct.unstake_requested_at pool.unstake_cooldown = some e →
      now < e →
      completeUnstake pool acct now = Except.error .CooldownNotElapsed) ∧
    (∀ (pool : StakingPool) (acct : StakeAccount) (e : Int) (pool1 : StakingPool)
        (pending : Nat),
      pool.paused = false →
      0 < acct.unstake_requested_at →
      checkedAddI64 acct.unstake_requested_at pool.unstake_cooldown = some e →
      updatePoolRewards pool e = Except.ok pool1 →
      calculatePendingRewards acct pool1 = Except.ok pending →
      acct.pending_rewards + pending ≤ U64MAX →
      acct.unstake_amount ≤ acct.staked_amount →
      (acct.staked_amount - acct.unstake_amount) * pool1.acc_reward_per_share ≤ U128MAX →
      acct.unstake_amount ≤ pool1.total_staked →
      ∃ pool' acct', completeUnstake pool acct e = Except.ok (pool', acct') ∧
        acct'.staked_amount + acct.unstake_amount = acct.staked_amount ∧
        acct'.unstake_requested_at = 0 ∧ acct'.unstake_amount = 0 ∧
        pool'.total_staked + acct.unstake_amount = pool1.total_staked) := by
  refine ⟨completeUnstake_cooldown_error, ?_⟩
  intro pool acct e pool1 pending hpause hreq hadd hup hpend h64 hsub hmul htot
  refine ⟨_, _,
    completeUnstake_ok_of pool acct e e pool1 pending hpause hreq hadd le_rfl hup hpend
      h64 hsub hmul htot, ?_, rfl, rfl, ?_⟩
  · dsimp only
    omega
  · dsimp only
    omega

def c5wPool : StakingPool :=
  { total_staked := 300, min_stake_amount := 100, reward_rate_bps := 0,
    unstake_cooldown := 50, last_reward_distribution := 0,
    acc_reward_per_share := 0, paused := false }

def c5wAccount : StakeAccount :=
  { owner := 7, staked_amount := 200, staked_at := 0, pending_rewards := 0,
    reward_debt := 0, unstake_requested_at := 100, unstake_amount := 120,
    total_rewards_claimed := 0, slash_count := 0 }

/-- C5 witness: the amended theorem at a concrete account whose cooldown
ends at `t = 150`. -/
theorem c5_complete_unstake_cooldown_witness :
    completeUnstake c5wPool c5wAccount 149 = Except.error .CooldownNotElapsed ∧
    (∃ pool' acct', completeUnstake c5wPool c5wAccount 150 = Except.ok (pool', acct') ∧
      acct'.staked_amount + c5wAccount.unstake_amount = c5wAccount.staked_amount ∧
      acct'.unstake_requested_at = 0 ∧ acct'.unstake_amount = 0 ∧
      pool'.total_staked + c5wAccount.unstake_amount =
        ({ c5wPool with last_reward_distribution := 150 } : StakingPool).total_staked) := by
  constructor
  · exact c5_complete_unstake_cooldown.1 c5wPool c5wAccount 149 150 (by decide) (by decide)
      (by decide) (by decide)
  · exact c5_complete_unstake_cooldown.2 c5wPool c5wAccount 150
      { c5wPool with last_reward_distribution := 150 } 0 (by decide) (by decide)
      (by decide) (by decide) (by decide) (by decide) (by decide) (by decide) (by decide)

/-! ## Reward-debt inversion lemmas (claim C8) -/

theorem stake_ok_inv (pool : StakingPool) (acct : StakeAccount) (owner amount : Nat)
    (now : Int) (pool' : StakingPool) (acct' : StakeAccount)
    (h : stake pool acct owner amount now = Except.ok (pool', acct')) :
    acct'.reward_debt = acct'.staked_amount * pool'.acc_reward_per_share / REWARD_PRECISION := by
  unfold stake at h
  split at h
  · exact Except.noConfusion h
  split at h
  · exact Except.noConfusion h
  cases hup : updatePoolRewards pool now with
  | error e =>
      rw [hup, except_bind_error] at h
      exact Except.noConfusion h
  | ok pool1 =>
      rw [hup, except_bind_ok] at h
      cases hsp : stakeSettlePending acct pool1 with
      | error e =>
          rw [hsp, except_bind_error] at h
          exact Except.noConfusion h
      | ok sa =>
          rw [hsp, except_bind_ok] at h
          cases hst : checkedAdd64 sa.staked_amount amount with
          | none =>
              rw [hst] at h
              exact Except.noConfusion h
          | some staked =>
              rw [hst] at h
              dsimp only at h
              rw [except_pure_def, except_bind_ok] at h
              cases hdt : checkedMul128 staked pool1.acc_reward_per_share with
              | none =>
                  rw [hdt] at h
                  exact Except.noConfusion h
              | some debtRaw =>
                  obtain ⟨hdteq, -⟩ := checkedMul128_some hdt
                  rw [hdt] at h
                  dsimp only at h
                  rw [except_pure_def, except_bind_ok] at h
                  cases htt : checkedAdd64 pool1.total_staked amount with
                  | none =>
                      rw [htt] at h
                      exact Except.noConfusion h
                  | some total =>
                      rw [htt] at h
                      dsimp only at h
                      rw [except_pure_def, except_bind_ok, except_pure_def,
                        Except.ok.injEq, Prod.mk.injEq] at h
                      obtain ⟨hpool, hacct⟩ := h
                      rw [← hpool, ← hacct]
                      dsimp only
                      rw [hdteq]

theorem completeUnstake_ok_inv (pool : StakingPool) (acct : StakeAccount)
    (now : Int) (pool' : StakingPool) (acct' : StakeAccount)
    (h : completeUnstake pool acct now = Except.ok (pool', acct')) :
    acct'.reward_debt = acct'.staked_amount * pool'.acc_reward_per_share / REWARD_PRECISION := by
  unfold completeUnstake at h
  split at h
  · exact Except.noConfusion h
  split at h
  · exact Except.noConfusion h
  cases hadd : checkedAddI64 acct.unstake_requested_at pool.unstake_cooldown with
  | none =>
      rw [hadd] at h
      exact Except.noConfusion h
  | some e =>
      rw [hadd] at h
      dsimp only at h
      rw [except_pure_def, except_bind_ok] at h
      split at h
      · exact Except.noConfusion h
      cases hup : updatePoolRewards pool now with
      | error er =>
          rw [hup, except_bind_error] at h
          exact Except.noConfusion h
      | ok pool1 =>
          rw [hup, except_bind_ok] at h
          cases hcp : calculatePendingRewards acct pool1 with
          | error er =>
              rw [hcp, except_bind_error] at h
              exact Except.noConfusion h
          | ok pending =>
              rw [hcp, except_bind_ok] at h
              cases hpr : checkedAdd64 acct.pending_rewards pending with
              | none =>
                  rw [hpr] at h
                  exact Except.noConfusion h
              | some pr =>
                  rw [hpr] at h
                  dsimp only at h
                  rw [except_pure_def, except_bind_ok] at h
                  cases hst : checkedSub acct.staked_amount acct.unstake_amount with
                  | none =>
                      rw [hst] at h
                      exact Except.noConfusion h
                  | some staked =>
                      rw [hst] at h
                      dsimp only at h
                      rw [except_pure_def, except_bind_ok] at h
                      cases hdt : checkedMul128 staked pool1.acc_reward_per_share with
                      | none =>
                          rw [hdt] at h
                          exact Except.noConfusion h
                      | some debtRaw =>
                          obtain ⟨hdteq, -⟩ := checkedMul128_some hdt
                          rw [hdt] at h
                          dsimp only at h
                          rw [except_pure_def, except_bind_ok] at h
                          cases htt : checkedSub pool1.total_staked acct.unstake_amount with
                          | none =>
                              rw [htt] at h
                              exact Except.noConfusion h
                          | some total =>
                              rw [htt] at h
                              dsimp only at h
                              rw [except_pure_def, except_bind_ok, except_pure_def,
                                Except.ok.injEq, Prod.mk.injEq] at h
                              obtain ⟨hpool, hacct⟩ := h
                              rw [← hpool, ← hacct]
                              dsimp only
                              rw [hdteq]

theorem slash_ok_inv (pool : StakingPool) (acct : StakeAccount) (amount : Nat)
    (reason : SlashReason) (oracle : Nat) (now : Int) (pool' : StakingPool)
    (acct' : StakeAccount) (record : SlashRecord)
    (h : slash pool acct amount reason oracle now = Except.ok (pool', acct', record)) :
    acct'.reward_debt = acct'.staked_amount * pool'.acc_reward_per_share / REWARD_PRECISION := by
  unfold slash at h
  split at h
  · exact Except.noConfusion h
  split at h
  · exact Except.noConfusion h
  cases hup : updatePoolRewards pool now with
  | error er =>
      rw [hup, except_bind_error] at h
      exact Except.noConfusion h
  | ok pool1 =>
      rw [hup, except_bind_ok] at h
      cases hst : checkedSub acct.staked_amount amount with
      | none =>
          rw [hst] at h
          exact Except.noConfusion h
      | some staked =>
          rw [hst] at h
          dsimp only at h
          rw [except_pure_def, except_bind_ok] at h
          cases hsc : checkedAdd8 acct.slash_count 1 with
          | none =>
              rw [hsc] at h
              exact Except.noConfusion h
          | some sc =>
              rw [hsc] at h
              dsimp only at h
              rw [except_pure_def, except_bind_ok] at h
              cases hdt : checkedMul128 staked pool1.acc_reward_per_share with
              | none =>
                  rw [hdt] at h
                  exact Except.noConfusion h
              | some debtRaw =>
                  obtain ⟨hdteq, -⟩ := checkedMul128_some hdt
                  rw [hdt] at h
                  dsimp only at h
                  rw [except_pure_def, except_bind_ok] at h
                  cases htt : checkedSub pool1.total_staked amount with
                  | none =>
                      rw [htt] at h
                      exact Except.noConfusion h
                  | some total =>
                      rw [htt] at h
                      dsimp only at h
                      rw [except_pure_def, except_bind_ok, except_pure_def,
                        Except.ok.injEq] at h
                      simp only [Prod.mk.injEq] at h
                      rw [← h.1, ← h.2.1]
                      dsimp only
                      rw [hdteq]

/-! ## Claim C8 -/

/-- C8.  Immediately after every successful `stake`, `complete_unstake` and
`slash`, the stake account satisfies
`reward_debt = staked_amount * acc_reward_per_share / REWARD_PRECISION`
against the pool state those operations return (each re-derives the debt
from the freshly updated accumulator). -/
theorem c8_reward_debt_invariant :
    (∀ (pool : StakingPool) (acct : StakeAccount) (owner amount : Nat) (now : Int)
        (pool' : StakingPool) (acct' : StakeAccount),
      stake pool acct owner amount now = Except.ok (pool', acct') →
      acct'.reward_debt =
        acct'.staked_amount * pool'.acc_reward_per_share / REWARD_PRECISION) ∧
    (∀ (pool : StakingPool) (acct : StakeAccount) (now : Int)
        (pool' : StakingPool) (acct' : StakeAccount),
      completeUnstake pool acct now = Except.ok (pool', acct') →
      acct'.reward_debt =
        acct'.staked_amount * pool'.acc_reward_per_share / REWARD_PRECISION) ∧
    (∀ (pool : StakingPool) (acct : StakeAccount) (amount : Nat) (reason : SlashReason)
        (oracle : Nat) (now : Int) (pool' : StakingPool) (acct' : StakeAccount)
        (record : SlashRecord),
      slash pool acct amount reason oracle now = Except.ok (pool', acct', record) →
      acct'.reward_debt =
        acct'.staked_amount * pool'.acc_reward_per_share / REWARD_PRECISION) :=
  ⟨stake_ok_inv, completeUnstake_ok_inv, slash_ok_inv⟩

def c8wPool : StakingPool :=
  { total_staked := 500, min_stake_amount := 100, reward_rate_bps := 0,
    unstake_cooldown := 50, last_reward_distribution := 0,
    acc_reward_per_share := 0, paused := false }

def c8wAccount : StakeAccount :=
  { owner := 7, staked_amount := 200, staked_at := 0, pending_rewards := 0,
    reward_debt := 0, unstake_requested_at := 100, unstake_amount := 50,
    total_rewards_claimed := 0, slash_count := 0 }

def c8wPoolS : StakingPool :=
  { c8wPool with total_staked := 650, last_reward_distribution := 10 }

def c8wAcctS : StakeAccount :=
  { c8wAccount with staked_amount := 350, staked_at := 10 }

def c8wPoolU : StakingPool :=
  { c8wPool with total_staked := 450, last_reward_distribution := 150 }

def c8wAcctU : StakeAccount :=
  { c8wAccount with staked_amount := 150, unstake_requested_at := 0, unstake_amount := 0 }

def c8wPoolX : StakingPool :=
  { c8wPool with total_staked := 420, last_reward_distribution := 60 }

def c8wAcctX : StakeAccount :=
  { c8wAccount with staked_amount := 120, slash_count := 1 }

/-- C8 witness: the invariant instantiated on a concrete successful stake,
unstake completion and slash. -/
theorem c8_reward_debt_invariant_witness :
    c8wAcctS.reward_debt =
      c8wAcctS.staked_amount * c8wPoolS.acc_reward_per_share / REWARD_PRECISION ∧
    c8wAcctU.reward_debt =
      c8wAcctU.staked_amount * c8wPoolU.acc_reward_per_share / REWARD_PRECISION ∧
    c8wAcctX.reward_debt =
      c8wAcctX.staked_amount * c8wPoolX.acc_reward_per_share / REWARD_PRECISION := by
  refine ⟨c8_reward_debt_invariant.1 c8wPool c8wAccount 7 150 10 c8wPoolS c8wAcctS
      (by decide),
    c8_reward_debt_invariant.2.1 c8wPool c8wAccount 150 c8wPoolU c8wAcctU (by decide),
    c8_reward_debt_invariant.2.2 c8wPool c8wAccount 80 .MaliciousBehavior 9 60
      c8wPoolX c8wAcctX
      { staker := 7, amount := 80, reason := .MaliciousBehavior, timestamp := 60,
        slashed_by := 9 } (by decide)⟩
